import Mathlib

/-!
Verification of the `@verbadev/react` adapter (`src/context.ts`,
`src/useVerba.ts` and the context slot).

The adapter is a thin React binding around an external translation client
(`@verbadev/js`, out of scope).  We embed the Provider's behaviour as an
executable transition function `step` on a `World` record:

* `ReactState` is the Provider's reactive state (`isReady`, `currentLocale`,
  the two `useState` cells);
* `World.verbaRef` is the `useRef` cell holding the current client instance
  (instances are identified by freshly allocated natural numbers);
* `World.pending` models the in-flight `ready()` continuations of the JS
  event loop (fire-and-forget: there is no cancellation primitive, a
  teardown only suppresses the continuation's effect through the
  stale-reference check);
* `World.setLocaleCalls` records the delegated `verba.setLocale` calls;
* `World.createdWith` records which configuration each instance was
  constructed from.

Events: `effect cfg` is one run of the `useEffect` body for configuration
`cfg`; `cleanup i` is the effect cleanup captured by the instance `i`;
`resolve i loc` is instance `i`'s `ready()` promise resolving, with
`verba.getLocale()` returning `loc` at that moment; `reject i` is the
promise rejecting (the adapter attaches no rejection handler); and
`userSetLocale loc` is a consumer calling the exposed `setLocale`.

The external client's query surface is passed in as parameters
(`clientT` for `verba.t`, `ClientView` for `getLocales`/`getDefaultLocale`),
never fixed by the adapter.
-/

/-- `Record<string, string | number>` interpolation params (values as strings;
their contents never matter to the adapter). -/
abbrev Params := List (String × String)

/-- The second argument of `t`: `string | Record<string, string | number>`.
`typeof x === 'string'` discriminates the two shapes. -/
inductive DefaultOrParams where
  | str : String → DefaultOrParams
  | par : Params → DefaultOrParams
deriving DecidableEq, Repr

/-- Configuration props of `VerbaProvider` that key the client instance
(the `localeDetector` function prop is omitted: it is opaque to the adapter
and no claim mentions it). -/
structure Config where
  projectId : String
  publicKey : String
  locale : Option String
  baseUrl : Option String
deriving DecidableEq, Repr

/-- The Provider's reactive state: the `isReady` and `currentLocale`
`useState` cells of `src/context.ts`. -/
structure ReactState where
  isReady : Bool
  currentLocale : String
deriving DecidableEq, Repr

/-- The whole world the adapter code can touch: reactive state, the
`verbaRef` cell, the fresh-id source for new client instances, the in-flight
`ready()` continuations, and bookkeeping of calls delegated to instances. -/
structure World where
  react : ReactState
  verbaRef : Option Nat
  nextId : Nat
  pending : List Nat
  setLocaleCalls : List (Nat × String)
  createdWith : List (Nat × Config)
deriving DecidableEq, Repr

/-- World at mount, before any effect has run: `useState(false)` and
`useState(locale ?? 'en')`, `useRef<Verba | null>(null)`. -/
def initWorld (locale : Option String) : World :=
  { react := { isReady := false, currentLocale := locale.getD "en" }
    verbaRef := none
    nextId := 0
    pending := []
    setLocaleCalls := []
    createdWith := [] }

/-- `setIsReady(false)` — the first statement of the effect body. -/
def resetReady (w : World) : World :=
  { w with react := { w.react with isReady := false } }

/-- `const verba = new Verba({...})` — allocates a fresh instance identity
for the given configuration; returns the world and the new instance. -/
def constructClient (w : World) (cfg : Config) : World × Nat :=
  ({ w with nextId := w.nextId + 1, createdWith := w.createdWith ++ [(w.nextId, cfg)] },
   w.nextId)

/-- `verbaRef.current = verba` — replaces (never mutates) the stored
instance reference. -/
def storeRef (w : World) (i : Nat) : World :=
  { w with verbaRef := some i }

/-- `verba.ready().then(...)` — fire-and-forget: registers the continuation
and returns immediately, suspending nothing. -/
def requestReady (w : World) (i : Nat) : World :=
  { w with pending := w.pending ++ [i] }

/-- The `useEffect` body of `VerbaProvider`, in source order:
reset readiness, construct the client, store the reference, request
readiness. -/
def effectBody (w : World) (cfg : Config) : World :=
  let w0 := resetReady w
  let p := constructClient w0 cfg
  let w2 := storeRef p.1 p.2
  requestReady w2 p.2

/-- Events the adapter reacts to (see module docstring). -/
inductive Event where
  | effect : Config → Event
  | cleanup : Nat → Event
  | resolve : Nat → String → Event
  | reject : Nat → Event
  | userSetLocale : String → Event
deriving DecidableEq, Repr

/-- One step of the adapter.

* `effect cfg`: the `useEffect` body (`effectBody`).
* `cleanup i`: `if (verbaRef.current === verba) verbaRef.current = null`.
* `resolve i loc`: the continuation
  `if (verbaRef.current === verba) { setCurrentLocale(verba.getLocale()); setIsReady(true) }`;
  the continuation is consumed from `pending` either way.
* `reject i`: no handler is attached, so the adapter state is untouched;
  the continuation is still consumed.
* `userSetLocale loc`: the exposed `setLocale` callback:
  `if (verbaRef.current) { verbaRef.current.setLocale(newLocale); setCurrentLocale(newLocale) }`. -/
def step (w : World) : Event → World
  | .effect cfg => effectBody w cfg
  | .cleanup i =>
      if w.verbaRef = some i then { w with verbaRef := none } else w
  | .resolve i loc =>
      let w1 := { w with pending := w.pending.erase i }
      if w1.verbaRef = some i then
        { w1 with react := { isReady := true, currentLocale := loc } }
      else w1
  | .reject i => { w with pending := w.pending.erase i }
  | .userSetLocale loc =>
      match w.verbaRef with
      | some i =>
          { w with react := { w.react with currentLocale := loc },
                   setLocaleCalls := w.setLocaleCalls ++ [(i, loc)] }
      | none => w

/-- Run a list of events from a world. -/
def run (w : World) : List Event → World
  | [] => w
  | e :: es => run (step w e) es

/-- The exposed translate callback `t` of `src/context.ts`:
`if (!verbaRef.current) return typeof defaultValueOrParams === 'string' ? defaultValueOrParams : key;
return verbaRef.current.t(key, defaultValueOrParams, params)`.
`clientT` is the external instance's own `t` method, indexed by instance. -/
def tFun (clientT : Nat → String → Option DefaultOrParams → Option Params → String)
    (w : World) (key : String) (dvp : Option DefaultOrParams) (params : Option Params) :
    String :=
  match w.verbaRef with
  | none =>
      match dvp with
      | some (.str s) => s
      | _ => key
  | some i => clientT i key dvp params

/-- What the external instance reports through `getLocales()` and
`getDefaultLocale()`. -/
structure ClientView where
  locales : List String
  defaultLocale : Option String
deriving DecidableEq, Repr

/-- The context value interface (`VerbaContextValue` of `src/context.ts`):
translate function, current locale, locale setter (state-passing), locale
list, default locale, readiness flag. -/
structure VerbaContextValue where
  t : String → Option DefaultOrParams → Option Params → String
  locale : String
  setLocale : String → World
  locales : List String
  defaultLocale : Option String
  isReady : Bool

/-- The `useMemo` value published into the context slot:
`{ t, locale: currentLocale, setLocale, locales: verbaRef.current?.getLocales() ?? [],
defaultLocale: verbaRef.current?.getDefaultLocale() ?? null, isReady }`. -/
def contextValue (clientT : Nat → String → Option DefaultOrParams → Option Params → String)
    (view : Nat → ClientView) (w : World) : VerbaContextValue :=
  { t := tFun clientT w
    locale := w.react.currentLocale
    setLocale := fun loc => step w (.userSetLocale loc)
    locales :=
      match w.verbaRef with
      | some i => (view i).locales
      | none => []
    defaultLocale :=
      match w.verbaRef with
      | some i => (view i).defaultLocale
      | none => none
    isReady := w.react.isReady }

/-- `useVerba` (`src/useVerba.ts`): `useContext` hands back the context
slot's content, `null` outside any Provider subtree; the hook throws on
`null` and otherwise returns the value unchanged. -/
def useVerba : Option VerbaContextValue → Except String VerbaContextValue
  | none => .error "useVerba must be used within a <VerbaProvider>"
  | some v => .ok v

/-! ### Helper lemmas shared by the claim theorems -/

/-- A `resolve` step never touches the stored instance reference. -/
theorem resolve_verbaRef (w : World) (i : Nat) (loc : String) :
    (step w (.resolve i loc)).verbaRef = w.verbaRef := by
  simp only [step]
  split <;> rfl

/-- A `resolve` whose instance is not the one currently stored in
`verbaRef` only consumes the continuation: reactive state untouched. -/
theorem stale_resolve (w : World) (i : Nat) (loc : String) (h : w.verbaRef ≠ some i) :
    step w (.resolve i loc) = { w with pending := w.pending.erase i } := by
  simp [step, h]

/-- Right after the cleanup captured by instance `i` runs, `verbaRef`
cannot still point at `i`. -/
theorem cleanup_ref_ne (w : World) (i : Nat) : (step w (.cleanup i)).verbaRef ≠ some i := by
  simp only [step]
  by_cases h : w.verbaRef = some i
  · simp [h]
  · simp [h]

/-- A current (non-stale) `resolve` applies both state updates of the
continuation. -/
theorem current_resolve (w : World) (i : Nat) (loc : String) (h : w.verbaRef = some i) :
    step w (.resolve i loc) =
      { w with pending := w.pending.erase i,
               react := { isReady := true, currentLocale := loc } } := by
  simp [step, h]

/-- An `effect` step resets `isReady`, stores the fresh instance and leaves
`currentLocale` alone. -/
theorem effect_fields (w : World) (cfg : Config) :
    (step w (.effect cfg)).react.isReady = false ∧
    (step w (.effect cfg)).react.currentLocale = w.react.currentLocale ∧
    (step w (.effect cfg)).verbaRef = some w.nextId ∧
    (step w (.effect cfg)).nextId = w.nextId + 1 ∧
    (step w (.effect cfg)).pending = w.pending ++ [w.nextId] ∧
    (step w (.effect cfg)).createdWith = w.createdWith ++ [(w.nextId, cfg)] := by
  refine ⟨rfl, rfl, rfl, rfl, rfl, rfl⟩

/-! ### Claim theorems -/

/-- Claim C6: `useVerba` throws the usage error exactly when the context
slot holds its `null` default (no enclosing Provider), and otherwise
returns the nearest Provider's shared-state snapshot unchanged
(by reference: the very same value). -/
theorem useVerba_error_iff_outside_provider :
    useVerba none = .error "useVerba must be used within a <VerbaProvider>" ∧
    ∀ v : VerbaContextValue, useVerba (some v) = .ok v :=
  ⟨rfl, fun _ => rfl⟩

/-- Claim C9: on mount, before any readiness resolution, the exposed locale
is the `locale` prop when provided and the literal `"en"` otherwise; an
effect run does not change `currentLocale` (only a readiness resolution or
`setLocale` does), so the value is not browser-detected or
client-negotiated. -/
theorem mount_locale_prop_or_en :
    (∀ clientT view l, (contextValue clientT view (initWorld (some l))).locale = l) ∧
    (∀ clientT view, (contextValue clientT view (initWorld none)).locale = "en") ∧
    (∀ w cfg, (step w (.effect cfg)).react.currentLocale = w.react.currentLocale) :=
  ⟨fun _ _ _ => rfl, fun _ _ => rfl, fun _ _ => rfl⟩

/-- Claim C10: whenever no live client instance exists (`verbaRef` is
null — before the first effect, or after teardown), the published context
value has `locales = []` and `defaultLocale = null`. -/
theorem no_instance_locales_empty (clientT : Nat → String → Option DefaultOrParams →
    Option Params → String) (view : Nat → ClientView) (w : World)
    (h : w.verbaRef = none) :
    (contextValue clientT view w).locales = [] ∧
    (contextValue clientT view w).defaultLocale = none := by
  constructor <;> simp [contextValue, h]

/-- Witness for C10 at the mount state. -/
theorem no_instance_locales_empty_witness :
    (contextValue (fun _ k _ _ => k) (fun _ => ⟨[], none⟩) (initWorld none)).locales = [] ∧
    (contextValue (fun _ k _ _ => k) (fun _ => ⟨[], none⟩) (initWorld none)).defaultLocale
      = none :=
  no_instance_locales_empty (fun _ k _ _ => k) (fun _ => ⟨[], none⟩) (initWorld none) rfl

/-- Claim C5: `setLocale x` with no live instance leaves the world
completely unchanged; with a live instance `i` it appends the delegated
call `(i, x)` to the instance and synchronously mirrors `x` into the
exposed `currentLocale` (leaving `isReady` and the stored reference
alone), so an immediate read of the published locale returns `x` without
waiting for any client confirmation. -/
theorem setLocale_noop_or_optimistic_mirror (w : World) (x : String) :
    (w.verbaRef = none → step w (.userSetLocale x) = w) ∧
    (∀ i, w.verbaRef = some i →
      (step w (.userSetLocale x)).react.currentLocale = x ∧
      (step w (.userSetLocale x)).setLocaleCalls = w.setLocaleCalls ++ [(i, x)] ∧
      (step w (.userSetLocale x)).react.isReady = w.react.isReady ∧
      (step w (.userSetLocale x)).verbaRef = w.verbaRef ∧
      ∀ clientT view,
        (contextValue clientT view (step w (.userSetLocale x))).locale = x) := by
  constructor
  · intro h
    simp [step, h]
  · intro i h
    refine ⟨?_, ?_, ?_, ?_, ?_⟩ <;> simp [step, h, contextValue]

/-- Witness for C5: both branches at concrete worlds. -/
theorem setLocale_noop_or_optimistic_mirror_witness :
    step (initWorld none) (.userSetLocale "fr") = initWorld none ∧
    (step (step (initWorld none)
        (.effect ⟨"p", "k", none, none⟩)) (.userSetLocale "fr")).react.currentLocale
      = "fr" :=
  ⟨(setLocale_noop_or_optimistic_mirror (initWorld none) "fr").1 rfl,
   ((setLocale_noop_or_optimistic_mirror
      (step (initWorld none) (.effect ⟨"p", "k", none, none⟩)) "fr").2 0 rfl).1⟩

/-- A configuration used for concrete scenarios. -/
def cfg0 : Config := { projectId := "p", publicKey := "pk", locale := none, baseUrl := none }

/-- One admissible behaviour of the external client's `t`: it answers every
lookup with the translation `"zzz"`. -/
def clientT0 : Nat → String → Option DefaultOrParams → Option Params → String :=
  fun _ _ _ _ => "zzz"

/-- Counterexample to claim C2 as stated.  Take the world right after the
first effect ran but before the readiness promise has resolved: no live,
ready instance exists (`isReady` is still false), yet `t` does not return
the key (nor the supplied default) — the code guards only on
`!verbaRef.current`, which is already non-null here, so `t` delegates to
the not-yet-ready instance and returns whatever the external client
answers (`"zzz"` for `clientT0`). -/
theorem t_before_ready_delegates_counterexample :
    (step (initWorld none) (.effect cfg0)).react.isReady = false ∧
    (step (initWorld none) (.effect cfg0)).verbaRef = some 0 ∧
    tFun clientT0 (step (initWorld none) (.effect cfg0)) "greeting" none none = "zzz" ∧
    tFun clientT0 (step (initWorld none) (.effect cfg0)) "greeting" none none ≠ "greeting" ∧
    tFun clientT0 (step (initWorld none) (.effect cfg0)) "greeting"
        (some (.str "Hello")) none ≠ "Hello" := by
  refine ⟨rfl, rfl, rfl, ?_, ?_⟩ <;> decide

/-- Claim C2 amended: the guard is liveness, not readiness.  When no live
instance exists (`verbaRef` null — before the first effect runs, or after
teardown), `t` returns the literal default when the second argument is a
string and the key unchanged otherwise; whenever a live instance exists —
ready or not — `t` delegates entirely to that instance. -/
theorem t_fallback_or_delegate (clientT : Nat → String → Option DefaultOrParams →
    Option Params → String) (w : World) (key : String) (dvp : Option DefaultOrParams)
    (params : Option Params) :
    (w.verbaRef = none → ∀ s, dvp = some (.str s) →
      tFun clientT w key dvp params = s) ∧
    (w.verbaRef = none → (∀ s, dvp ≠ some (.str s)) →
      tFun clientT w key dvp params = key) ∧
    (∀ i, w.verbaRef = some i → tFun clientT w key dvp params = clientT i key dvp params) := by
  refine ⟨?_, ?_, ?_⟩
  · intro h s hs
    subst hs
    simp [tFun, h]
  · intro h hs
    match dvp with
    | none => simp [tFun, h]
    | some (.str s) => exact absurd rfl (hs s)
    | some (.par p) => simp [tFun, h]
  · intro i h
    simp [tFun, h]

/-- Witness for the amended C2: the fallback branches at mount, the
delegation branch right after the first effect. -/
theorem t_fallback_or_delegate_witness :
    tFun clientT0 (initWorld none) "greeting" (some (.str "Hello")) none = "Hello" ∧
    tFun clientT0 (initWorld none) "greeting" none none = "greeting" ∧
    tFun clientT0 (step (initWorld none) (.effect cfg0)) "greeting" none none
      = clientT0 0 "greeting" none none :=
  ⟨(t_fallback_or_delegate clientT0 (initWorld none) "greeting"
      (some (.str "Hello")) none).1 rfl "Hello" rfl,
   (t_fallback_or_delegate clientT0 (initWorld none) "greeting" none none).2.1 rfl
      (fun s h => by simp at h),
   (t_fallback_or_delegate clientT0 (step (initWorld none) (.effect cfg0)) "greeting"
      none none).2.2 0 rfl⟩

/-- Claim C4: unmounting while a readiness operation is in flight causes no
post-teardown state change: after the cleanup for instance `i` has run, the
pending continuation of `i` leaves the reactive state and the stored
reference exactly as the cleanup left them (it only gets consumed from the
event queue).  In the embedding `step` is a total function, so the
continuation also cannot raise. -/
theorem unmount_inflight_no_state_update (w : World) (i : Nat) (loc : String) :
    (step (step w (.cleanup i)) (.resolve i loc)).react = (step w (.cleanup i)).react ∧
    (step (step w (.cleanup i)) (.resolve i loc)).verbaRef
      = (step w (.cleanup i)).verbaRef := by
  have h := stale_resolve (step w (.cleanup i)) i loc (cleanup_ref_ne w i)
  rw [h]
  exact ⟨rfl, rfl⟩

/-- Claim C1: in the race of two rapid successive configuration changes
A then B where B's instance resolves readiness first and A's (stale)
instance resolves later, the final reactive state is B's: `currentLocale`
is B's reported locale and `isReady` is true.  The second conjunct is the
general staleness guard: a resolution of any instance that is not the one
currently stored never overwrites `currentLocale` or flips `isReady`. -/
theorem race_final_state_is_b (w : World) (cfgA cfgB : Config) (locA locB : String) :
    (run w [.effect cfgA, .cleanup w.nextId, .effect cfgB,
            .resolve (w.nextId + 1) locB, .resolve w.nextId locA]).react
      = { isReady := true, currentLocale := locB } ∧
    (∀ w' : World, ∀ i loc, w'.verbaRef ≠ some i →
      (step w' (.resolve i loc)).react = w'.react) := by
  constructor
  · simp [run, step, effectBody, resetReady, constructClient, storeRef, requestReady]
  · intro w' i loc h
    rw [stale_resolve w' i loc h]

/-- Witness for C1 at a concrete race from the mount state. -/
theorem race_final_state_is_b_witness :
    (run (initWorld none) [.effect cfg0, .cleanup 0, .effect cfg0,
        .resolve 1 "de", .resolve 0 "fr"]).react
      = { isReady := true, currentLocale := "de" } ∧
    (step (initWorld none) (.resolve 0 "fr")).react = (initWorld none).react :=
  ⟨(race_final_state_is_b (initWorld none) cfg0 cfg0 "fr" "de").1,
   (race_final_state_is_b (initWorld none) cfg0 cfg0 "fr" "de").2
      (initWorld none) 0 "fr" (by decide)⟩

/-! ### Counting false→true transitions of `isReady` per configuration
identity (claim C3) -/

/-- Number of events in the trace at which instance `i`'s readiness
resolution flips `isReady` from false to true. -/
def flips (w : World) (i : Nat) : List Event → Nat
  | [] => 0
  | e :: es =>
      (match e with
       | .resolve j loc =>
           if j = i ∧ w.react.isReady = false ∧
               (step w (.resolve j loc)).react.isReady = true then 1 else 0
       | _ => 0) + flips (step w e) i es

/-- Invariant: the stored reference only ever holds an already-allocated
instance id. -/
def RefFresh (w : World) : Prop :=
  ∀ j, w.verbaRef = some j → j < w.nextId

/-- Steps other than an effect never change `nextId`; cleanup never
changes the reactive state; `userSetLocale` never changes `verbaRef` or
`isReady`. -/
theorem cleanup_nextId (w : World) (k : Nat) : (step w (.cleanup k)).nextId = w.nextId := by
  simp only [step]
  split <;> rfl

theorem cleanup_react (w : World) (k : Nat) : (step w (.cleanup k)).react = w.react := by
  simp only [step]
  split <;> rfl

theorem resolve_nextId (w : World) (k : Nat) (loc : String) :
    (step w (.resolve k loc)).nextId = w.nextId := by
  simp only [step]
  split <;> rfl

theorem setLocale_nextId (w : World) (loc : String) :
    (step w (.userSetLocale loc)).nextId = w.nextId := by
  simp only [step]
  split <;> rfl

theorem setLocale_verbaRef (w : World) (loc : String) :
    (step w (.userSetLocale loc)).verbaRef = w.verbaRef := by
  simp only [step]
  split <;> rfl

theorem setLocale_isReady (w : World) (loc : String) :
    (step w (.userSetLocale loc)).react.isReady = w.react.isReady := by
  simp only [step]
  split <;> rfl

/-- `RefFresh` is preserved by every step. -/
theorem refFresh_step (w : World) (e : Event) (h : RefFresh w) : RefFresh (step w e) := by
  intro j hj
  match e with
  | .effect cfg =>
      have hj' : some w.nextId = some j := hj
      have hji : w.nextId = j := Option.some.inj hj'
      have hn : (step w (.effect cfg)).nextId = w.nextId + 1 := rfl
      rw [hn]
      omega
  | .cleanup k =>
      rw [cleanup_nextId]
      by_cases hk : w.verbaRef = some k
      · simp [step, hk] at hj
      · simp only [step, if_neg hk] at hj
        exact h j hj
  | .resolve k loc =>
      rw [resolve_nextId]
      rw [resolve_verbaRef] at hj
      exact h j hj
  | .reject k => exact h j hj
  | .userSetLocale loc =>
      rw [setLocale_nextId]
      rw [setLocale_verbaRef] at hj
      exact h j hj

/-- After instance `i` has done its (only possible) successful flip — or
has merely been superseded — this holds: `i` is already allocated and the
reference can only point at `i` while `isReady` is true. -/
def DoneFor (i : Nat) (w : World) : Prop :=
  i < w.nextId ∧ (w.verbaRef = some i → w.react.isReady = true)

/-- `DoneFor` is preserved by every step: an `effect` stores a strictly
fresher id, and a `resolve` that applies sets `isReady` to true. -/
theorem doneFor_step (i : Nat) (w : World) (e : Event) (h : DoneFor i w) :
    DoneFor i (step w e) := by
  obtain ⟨hlt, himp⟩ := h
  match e with
  | .effect cfg =>
      have hn : (step w (.effect cfg)).nextId = w.nextId + 1 := rfl
      refine ⟨by rw [hn]; omega, ?_⟩
      intro hr
      have hr' : some w.nextId = some i := hr
      have : w.nextId = i := Option.some.inj hr'
      omega
  | .cleanup k =>
      refine ⟨by rw [cleanup_nextId]; exact hlt, ?_⟩
      by_cases hk : w.verbaRef = some k
      · simp [step, hk]
      · simp only [step, if_neg hk]
        exact himp
  | .resolve k loc =>
      refine ⟨by rw [resolve_nextId]; exact hlt, ?_⟩
      by_cases hk : w.verbaRef = some k
      · intro _
        rw [current_resolve w k loc hk]
      · intro hj
        rw [stale_resolve w k loc hk] at hj ⊢
        exact himp hj
  | .reject k => exact ⟨hlt, himp⟩
  | .userSetLocale loc =>
      refine ⟨by rw [setLocale_nextId]; exact hlt, ?_⟩
      intro hj
      rw [setLocale_verbaRef] at hj
      rw [setLocale_isReady]
      exact himp hj

/-- Once `DoneFor i` holds, instance `i` can never flip `isReady`
false→true again. -/
theorem flips_zero_of_doneFor (i : Nat) :
    ∀ (evs : List Event) (w : World), DoneFor i w → flips w i evs = 0 := by
  intro evs
  induction evs with
  | nil => intro w _; rfl
  | cons e es ih =>
      intro w h
      have tail := ih (step w e) (doneFor_step i w e h)
      match e with
      | .effect cfg => simpa [flips] using tail
      | .cleanup k => simpa [flips] using tail
      | .reject k => simpa [flips] using tail
      | .userSetLocale loc => simpa [flips] using tail
      | .resolve k loc =>
          by_cases hcond : k = i ∧ w.react.isReady = false ∧
              (step w (.resolve k loc)).react.isReady = true
          · obtain ⟨hki, hfalse, htrue⟩ := hcond
            subst hki
            by_cases hk : w.verbaRef = some k
            · rw [h.2 hk] at hfalse
              cases hfalse
            · rw [stale_resolve w k loc hk] at htrue
              rw [htrue] at hfalse
              cases hfalse
          · simp only [flips, if_neg hcond, tail]

/-- Main counting lemma: from any world whose reference is fresh,
instance `i` flips `isReady` false→true at most once, in any trace. -/
theorem flips_le_one (i : Nat) :
    ∀ (evs : List Event) (w : World), RefFresh w → flips w i evs ≤ 1 := by
  intro evs
  induction evs with
  | nil => intro w _; simp [flips]
  | cons e es ih =>
      intro w hw
      match e with
      | .effect cfg => simpa [flips] using ih _ (refFresh_step w _ hw)
      | .cleanup k => simpa [flips] using ih _ (refFresh_step w _ hw)
      | .reject k => simpa [flips] using ih _ (refFresh_step w _ hw)
      | .userSetLocale loc => simpa [flips] using ih _ (refFresh_step w _ hw)
      | .resolve k loc =>
          by_cases hcond : k = i ∧ w.react.isReady = false ∧
              (step w (.resolve k loc)).react.isReady = true
          · have hki := hcond.1
            have hfalse := hcond.2.1
            have htrue := hcond.2.2
            have hk : w.verbaRef = some k := by
              by_contra hk
              rw [stale_resolve w k loc hk] at htrue
              rw [htrue] at hfalse
              cases hfalse
            have hdone : DoneFor i (step w (.resolve k loc)) := by
              refine ⟨?_, fun _ => htrue⟩
              rw [resolve_nextId]
              exact hw i (hki ▸ hk)
            have tail := flips_zero_of_doneFor i es _ hdone
            simp only [flips, if_pos hcond, tail]
            omega
          · have tail := ih _ (refFresh_step w (.resolve k loc) hw)
            simp only [flips, if_neg hcond]
            omega

/-- Claim C3: for every configuration identity (instance), `isReady`
flips false→true at most once along any trace from the mount state; every
configuration change first resets `isReady` to false; and a resolution of
a torn-down or superseded identity (one no longer stored in `verbaRef`)
never changes the reactive state at all. -/
theorem isReady_transitions_at_most_once :
    (∀ lp i evs, flips (initWorld lp) i evs ≤ 1) ∧
    (∀ w cfg, (step w (.effect cfg)).react.isReady = false) ∧
    (∀ w i loc, w.verbaRef ≠ some i →
      (step w (.resolve i loc)).react = w.react) := by
  refine ⟨?_, fun _ _ => rfl, ?_⟩
  · intro lp i evs
    exact flips_le_one i evs (initWorld lp) (fun j hj => by simp [initWorld] at hj)
  · intro w i loc h
    rw [stale_resolve w i loc h]

/-- Witness for C3: a double resolution of instance 0 still flips at most
once, and resolving a never-stored identity from mount changes nothing. -/
theorem isReady_transitions_at_most_once_witness :
    flips (initWorld none) 0 [.effect cfg0, .resolve 0 "en", .resolve 0 "en"] ≤ 1 ∧
    (step (initWorld none) (.resolve 3 "en")).react = (initWorld none).react :=
  ⟨isReady_transitions_at_most_once.1 none 0 _,
   isReady_transitions_at_most_once.2.2 (initWorld none) 3 "en" (by decide)⟩

/-- Does the event apply a readiness-success continuation? -/
def isResolve : Event → Bool
  | .resolve _ _ => true
  | _ => false

/-- Claim C7: the adapter wires no rejection handler, so a failing
readiness promise (`reject`) leaves the reactive state and the stored
reference untouched — no error state exists to surface; and without a
successful resolution `isReady` can never become true (globally, and per
identity: a trace with no `resolve i _` event has zero flips for `i`). -/
theorem readiness_failure_leaves_not_ready :
    (∀ w i, (step w (.reject i)).react = w.react ∧
            (step w (.reject i)).verbaRef = w.verbaRef) ∧
    (∀ evs (w : World), (∀ e ∈ evs, isResolve e = false) →
      w.react.isReady = false → (run w evs).react.isReady = false) ∧
    (∀ evs (w : World) i, (∀ loc, Event.resolve i loc ∉ evs) → flips w i evs = 0) := by
  refine ⟨fun _ _ => ⟨rfl, rfl⟩, ?_, ?_⟩
  · intro evs
    induction evs with
    | nil => intro w _ h; exact h
    | cons e es ih =>
        intro w hno h
        have hnoe : isResolve e = false := hno e (List.mem_cons_self ..)
        have hstep : (step w e).react.isReady = false := by
          match e with
          | .effect cfg => rfl
          | .cleanup k => rw [cleanup_react]; exact h
          | .reject k => exact h
          | .userSetLocale loc => rw [setLocale_isReady]; exact h
          | .resolve k loc => simp [isResolve] at hnoe
        simp only [run]
        exact ih (step w e) (fun e' he' => hno e' (List.mem_cons_of_mem _ he')) hstep
  · intro evs
    induction evs with
    | nil => intro w i _; rfl
    | cons e es ih =>
        intro w i hno
        have tail := ih (step w e) i (fun loc hmem => hno loc (List.mem_cons_of_mem _ hmem))
        match e with
        | .effect cfg => simpa [flips] using tail
        | .cleanup k => simpa [flips] using tail
        | .reject k => simpa [flips] using tail
        | .userSetLocale loc => simpa [flips] using tail
        | .resolve k loc =>
            have hki : k ≠ i := by
              intro hk
              exact hno loc (hk ▸ List.mem_cons_self ..)
            simp only [flips, tail]
            rw [if_neg (fun hc => hki hc.1)]

/-- Witness for C7: a rejected first instance from mount leaves the world
not ready, both through the no-resolve-trace form and the per-identity
flip count. -/
theorem readiness_failure_leaves_not_ready_witness :
    (run (initWorld none) [.effect cfg0, .reject 0]).react.isReady = false ∧
    flips (initWorld none) 0 [.effect cfg0, .reject 0] = 0 :=
  ⟨readiness_failure_leaves_not_ready.2.1 [.effect cfg0, .reject 0] (initWorld none)
      (by decide) rfl,
   readiness_failure_leaves_not_ready.2.2 [.effect cfg0, .reject 0] (initWorld none) 0
      (by intro loc h; simp [cfg0] at h)⟩

/-- Claim C8: on every configuration-identity change the effect performs,
in source order, reset of `isReady`, construction of a new client from the
configuration, replacement of the stored reference, and a fire-and-forget
readiness request (the step completes with the continuation merely
pending); the teardown of an identity invalidates the stored reference
(so it can never still equal that instance), and a continuation that
finds the reference invalidated changes neither the reactive state nor
the reference.  `verbaRef` is a single optional cell holding the fresh
instance, so at most one live instance exists at a time. -/
theorem effect_order_and_teardown :
    (∀ w cfg, step w (.effect cfg) =
      requestReady
        (storeRef (constructClient (resetReady w) cfg).1 (constructClient (resetReady w) cfg).2)
        (constructClient (resetReady w) cfg).2) ∧
    (∀ w cfg,
      (step w (.effect cfg)).react.isReady = false ∧
      (step w (.effect cfg)).verbaRef = some w.nextId ∧
      (step w (.effect cfg)).createdWith = w.createdWith ++ [(w.nextId, cfg)] ∧
      (step w (.effect cfg)).pending = w.pending ++ [w.nextId] ∧
      (step w (.effect cfg)).nextId = w.nextId + 1) ∧
    (∀ w i, w.verbaRef = some i → (step w (.cleanup i)).verbaRef = none) ∧
    (∀ w i, (step w (.cleanup i)).verbaRef ≠ some i) ∧
    (∀ w i loc, w.verbaRef ≠ some i →
      (step w (.resolve i loc)).react = w.react ∧
      (step w (.resolve i loc)).verbaRef = w.verbaRef) := by
  refine ⟨fun _ _ => rfl, fun _ _ => ⟨rfl, rfl, rfl, rfl, rfl⟩, ?_, cleanup_ref_ne, ?_⟩
  · intro w i h
    simp [step, h]
  · intro w i loc h
    rw [stale_resolve w i loc h]
    exact ⟨rfl, rfl⟩

/-- Witness for C8: teardown of the first instance from the mounted world
invalidates the reference and the late continuation is suppressed. -/
theorem effect_order_and_teardown_witness :
    (step (step (initWorld none) (.effect cfg0)) (.cleanup 0)).verbaRef = none ∧
    (step (initWorld none) (.resolve 0 "de")).react = (initWorld none).react :=
  ⟨effect_order_and_teardown.2.2.1 (step (initWorld none) (.effect cfg0)) 0 rfl,
   (effect_order_and_teardown.2.2.2.2 (initWorld none) 0 "de" (by decide)).1⟩
